/-
Verification of the deno-delay-proxy request-routing and fault-injection
pipeline against its natural-language specification.

The embedding models the layered implementation (src/handlers/*.ts,
src/repository/*.ts, main.ts `handleRequest`):
  * JSON values are modelled by the inductive `Json`; JSON numbers are
    modelled as integers (every value exercised by the spec's scenarios is
    an integer).  `Json.stringify` mirrors `JSON.stringify` on this
    fragment (insertion-ordered object keys, no whitespace, the common
    escape sequences).
  * The Deno KV backend is modelled by `KVState` (the two records that the
    program stores) together with explicit failure flags: each repository
    load/save takes a `Bool` saying whether the underlying KV call throws,
    mirroring the `Result`-typed repository layer.
  * Effects (sleeping, fetching the upstream, log events) are recorded in
    an explicit event trace, and handlers are pure functions from their
    inputs (request, KV state, fault flags, upstream exchange) to a
    response, an updated KV state and that trace.
-/
import Mathlib

/-- JSON values as produced by `JSON.parse`.  Numbers are modelled as
integers; parsed objects are association lists in key order (JavaScript
objects resulting from `JSON.parse` have distinct keys). -/
inductive Json where
  | null : Json
  | bool (b : Bool) : Json
  | num (n : Int) : Json
  | str (s : String) : Json
  | arr (elems : List Json) : Json
  | obj (fields : List (String × Json)) : Json

/-- One character of `JSON.stringify` string escaping (the escapes that can
occur in this program's data: quote, backslash, and the common control
characters). -/
def escapeChar (c : Char) : String :=
  if c = '\"' then "\\\""
  else if c = '\\' then "\\\\"
  else if c = '\n' then "\\n"
  else if c = '\t' then "\\t"
  else if c = '\r' then "\\r"
  else String.singleton c

/-- String body of `JSON.stringify` escaping. -/
def escapeString (s : String) : String :=
  s.foldl (fun acc c => acc ++ escapeChar c) ""

/-- A JSON string literal: quotes around the escaped content. -/
def quoteString (s : String) : String :=
  "\"" ++ escapeString s ++ "\""

mutual

/-- `JSON.stringify` on the modelled JSON fragment: no whitespace, object
keys in insertion order, integers printed in decimal. -/
def Json.stringify : Json → String
  | Json.null => "null"
  | Json.bool true => "true"
  | Json.bool false => "false"
  | Json.num n => toString n
  | Json.str s => quoteString s
  | Json.arr es => "[" ++ Json.stringifyElems es ++ "]"
  | Json.obj fs => "\x7b" ++ Json.stringifyFields fs ++ "\x7d"

/-- Comma-separated serialization of array elements. -/
def Json.stringifyElems : List Json → String
  | [] => ""
  | [e] => Json.stringify e
  | e :: e2 :: rest => Json.stringify e ++ "," ++ Json.stringifyElems (e2 :: rest)

/-- Comma-separated serialization of object fields. -/
def Json.stringifyFields : List (String × Json) → String
  | [] => ""
  | [(k, v)] => quoteString k ++ ":" ++ Json.stringify v
  | (k, v) :: f2 :: rest =>
      quoteString k ++ ":" ++ Json.stringify v ++ "," ++ Json.stringifyFields (f2 :: rest)

end

/-- Property access `obj[key]` on a parsed JSON object (keys are distinct
after `JSON.parse`, so first match suffices). -/
def lookupField : List (String × Json) → String → Option Json
  | [], _ => none
  | (k, v) :: rest, key => if k = key then some v else lookupField rest key

/-- Kill-switch configuration persisted in Deno KV
(src/types.ts `KillSwitch`). -/
structure KillSwitch where
  enabled : Bool
  status : Int
  headers : List (String × String)
  body : String
deriving DecidableEq, Repr

/-- Default kill-switch values used when no persisted data exists
(src/types.ts `DEFAULT_KILL_SWITCH`). -/
def DEFAULT_KILL_SWITCH : KillSwitch :=
  { enabled := false
    status := 200
    headers := [("content-type", "application/json")]
    body := "\x7b\"message\": \"blocked by kill-switch\"\x7d" }

/-- The two records held by the Deno KV store: the kill-switch record and
the delay record, each `none` when never written. -/
structure KVState where
  killSwitch : Option KillSwitch
  delay : Option Int
deriving DecidableEq, Repr

/-- `KillSwitchRepository.load` (src/repository/kill-switch.ts): `none`
models the KV call throwing (a `Result.error`); otherwise the stored
record, or `DEFAULT_KILL_SWITCH` when absent. -/
def KillSwitchRepository.load (kv : KVState) (fail : Bool) : Option KillSwitch :=
  if fail then none else some (kv.killSwitch.getD DEFAULT_KILL_SWITCH)

/-- `KillSwitchRepository.save`: returns the updated KV state and whether
the save succeeded (`false` models the KV call throwing). -/
def KillSwitchRepository.save (kv : KVState) (fail : Bool) (data : KillSwitch) :
    KVState × Bool :=
  if fail then (kv, false) else ({ kv with killSwitch := some data }, true)

/-- `DelayRepository.load` (src/repository/delay.ts, mirrored by
src/state/delay.ts `DelayEntity.load`): the stored delay, or the
caller-supplied default when absent; `none` models a KV failure. -/
def DelayRepository.load (kv : KVState) (fail : Bool) (defaultDelay : Int) : Option Int :=
  if fail then none else some (kv.delay.getD defaultDelay)

/-- `DelayRepository.save`: returns the updated KV state and whether the
save succeeded. -/
def DelayRepository.save (kv : KVState) (fail : Bool) (delay : Int) : KVState × Bool :=
  if fail then (kv, false) else ({ kv with delay := some delay }, true)

/-- Validated payload of `KillSwitchDto` (src/dto/kill-switch.ts): all four
fields optional. -/
structure KillSwitchDto where
  enabled : Option Bool
  status : Option Int
  headers : Option (List (String × String))
  body : Option String
deriving DecidableEq, Repr

/-- Zod `z.record(z.string())`: an object all of whose values are strings,
read off as an association list. -/
def parseHeadersFields : List (String × Json) → Option (List (String × String))
  | [] => some []
  | (k, Json.str v) :: rest => (parseHeadersFields rest).map (fun hs => (k, v) :: hs)
  | _ => none

/-- Zod `z.boolean().optional()` on a field position. -/
def parseOptBool : Option Json → Option (Option Bool)
  | none => some none
  | some (Json.bool b) => some (some b)
  | some _ => none

/-- Zod `z.number().optional()` on a field position. -/
def parseOptNum : Option Json → Option (Option Int)
  | none => some none
  | some (Json.num n) => some (some n)
  | some _ => none

/-- Zod `z.string().optional()` on a field position. -/
def parseOptStr : Option Json → Option (Option String)
  | none => some none
  | some (Json.str s) => some (some s)
  | some _ => none

/-- Zod `z.record(z.string()).optional()` on a field position. -/
def parseOptHeaders : Option Json → Option (Option (List (String × String)))
  | none => some none
  | some (Json.obj fs) => (parseHeadersFields fs).map some
  | some _ => none

/-- `KillSwitchDto.safeParse` (src/dto/kill-switch.ts): the body must be an
object; `enabled` a boolean, `status` a number (note: no range check),
`headers` a record of strings and `body` a string, each optional.  `none`
models a failed `safeParse`. -/
def KillSwitchDto.safeParse : Json → Option KillSwitchDto
  | Json.obj fs => do
      let enabled ← parseOptBool (lookupField fs "enabled")
      let status ← parseOptNum (lookupField fs "status")
      let headers ← parseOptHeaders (lookupField fs "headers")
      let body ← parseOptStr (lookupField fs "body")
      pure { enabled := enabled, status := status, headers := headers, body := body }
  | _ => none

/-- `DelayDto.safeParse` (src/dto/delay.ts): the body must be an object and
`delay`, when present, a number with `min(0)`. -/
def DelayDto.safeParse : Json → Option (Option Int)
  | Json.obj fs =>
      match lookupField fs "delay" with
      | none => some none
      | some (Json.num n) => if 0 ≤ n then some (some n) else none
      | some _ => none
  | _ => none

/-- The parts of an inbound `Request`/parsed `URL` that the handlers
consult: method, `url.pathname`, `url.search` (with its leading `?`, or
empty), headers, and the result of `await req.json()` for the API
handlers (`none` when the body is not valid JSON). -/
structure HttpRequest where
  method : String
  pathname : String
  search : String
  headers : List (String × String)
  bodyJson : Option Json

/-- A constructed `Response`: status, statusText (empty unless copied from
the upstream), headers and body text. -/
structure HttpResponse where
  status : Int
  statusText : String
  headers : List (String × String)
  body : String
deriving DecidableEq, Repr

/-- `new Response(JSON.stringify(body), {status, headers: {"content-type":
"application/json"}})`, the shape used by every API handler. -/
def jsonResponse (status : Int) (body : Json) : HttpResponse :=
  { status := status
    statusText := ""
    headers := [("content-type", "application/json")]
    body := Json.stringify body }

/-- Observable effects of one request, in program order: suspension via
`setTimeout`, the upstream `fetch`, and the structured log events emitted
through the logger (src/logger.ts). -/
inductive Event where
  | slept (ms : Int) : Event
  | fetched (targetUrl : String) : Event
  | logRequest (method url targetUrl : String) : Event
  | logResponse (targetUrl : String) (status : Int) (durationMs : Int) (killed : Bool) : Event
  | logInfo (event : String) : Event
  | logError (event : String) : Event
deriving DecidableEq, Repr

/-- Outcome of one handler invocation: the response, the KV state after any
saves, and the trace of effects. -/
structure HandlerOutcome where
  response : HttpResponse
  kv : KVState
  events : List Event

/-- The 400 response for a failed `await req.json()` parse. -/
def invalidJsonResponse : HttpResponse :=
  jsonResponse 400 (Json.obj [("error", Json.str "Invalid JSON body")])

/-- The 400 response for a failed Zod validation.  The code attaches the
Zod issue list as a `details` field; the issue objects themselves are not
modelled (no claim depends on their contents), only the `error` field and
the presence of `details` are. -/
def invalidBodyResponse : HttpResponse :=
  jsonResponse 400
    (Json.obj [("error", Json.str "Invalid request body"), ("details", Json.arr [])])

/-- `DelayHandler.handlePost` (src/handlers/delay.ts lines 31-87): parse
JSON, validate with `DelayDto`, load the current delay with default 0,
take the request's `delay` if provided else the loaded value else 0, save
it, log success or failure of the save, and answer 200
`{success: true, delay}`. -/
def DelayHandler.handlePost (kv : KVState) (loadFail saveFail : Bool)
    (bodyJson : Option Json) : HandlerOutcome :=
  match bodyJson with
  | none => { response := invalidJsonResponse, kv := kv, events := [] }
  | some j =>
    match DelayDto.safeParse j with
    | none => { response := invalidBodyResponse, kv := kv, events := [] }
    | some delayField =>
      let currentState := DelayRepository.load kv loadFail 0
      let delay := delayField.getD (currentState.getD 0)
      let saveResult := DelayRepository.save kv saveFail delay
      let logEvents :=
        if saveResult.2 then [Event.logInfo "delay-updated"]
        else [Event.logError "delay-save-failed"]
      { response := jsonResponse 200
          (Json.obj [("success", Json.bool true), ("delay", Json.num delay)])
        kv := saveResult.1
        events := logEvents }

/-- `DelayHandler.handleGet` (src/handlers/delay.ts lines 89-104): 200
`{delay}` on a successful load, 500 on a load failure. -/
def DelayHandler.handleGet (kv : KVState) (loadFail : Bool) : HttpResponse :=
  match DelayRepository.load kv loadFail 0 with
  | some delay => jsonResponse 200 (Json.obj [("delay", Json.num delay)])
  | none => jsonResponse 500 (Json.obj [("error", Json.str "Failed to load delay")])

/-- Serialization of a kill-switch record in the field order of the
`KillSwitch` object literals (`enabled`, `status`, `headers`, `body`). -/
def KillSwitch.toJson (k : KillSwitch) : Json :=
  Json.obj
    [("enabled", Json.bool k.enabled),
     ("status", Json.num k.status),
     ("headers", Json.obj (k.headers.map (fun p => (p.1, Json.str p.2)))),
     ("body", Json.str k.body)]

/-- The merge in `KillSwitchHandler.handlePost` (src/handlers/kill-switch.ts
lines 115-120): each field is the validated payload's value if present,
else the loaded record's value, else the hard-coded fallback
(`false` / `503` / `{}` / `""`).  `current` is `none` when the load
failed (`currentState.value` is then `undefined`). -/
def mergeKillSwitch (dto : KillSwitchDto) (current : Option KillSwitch) : KillSwitch :=
  { enabled := dto.enabled.getD ((current.map KillSwitch.enabled).getD false)
    status := dto.status.getD ((current.map KillSwitch.status).getD 503)
    headers := dto.headers.getD ((current.map KillSwitch.headers).getD [])
    body := dto.body.getD ((current.map KillSwitch.body).getD "") }

/-- `KillSwitchHandler.handlePost` (src/handlers/kill-switch.ts lines
78-143): parse JSON, validate with `KillSwitchDto`, load the current
record, merge field by field, save the merged record, log success or
failure of the save, and answer 200 `{success: true, state}`. -/
def KillSwitchHandler.handlePost (kv : KVState) (loadFail saveFail : Bool)
    (bodyJson : Option Json) : HandlerOutcome :=
  match bodyJson with
  | none => { response := invalidJsonResponse, kv := kv, events := [] }
  | some j =>
    match KillSwitchDto.safeParse j with
    | none => { response := invalidBodyResponse, kv := kv, events := [] }
    | some dto =>
      let currentState := KillSwitchRepository.load kv loadFail
      let newState := mergeKillSwitch dto currentState
      let saveResult := KillSwitchRepository.save kv saveFail newState
      let logEvents :=
        if saveResult.2 then [Event.logInfo "kill-switch-updated"]
        else [Event.logError "kill-switch-save-failed"]
      { response := jsonResponse 200
          (Json.obj [("success", Json.bool true), ("state", newState.toJson)])
        kv := saveResult.1
        events := logEvents }

/-- `KillSwitchHandler.handleGet` (src/handlers/kill-switch.ts lines
145-160): 200 with the record on a successful load, 500 on failure. -/
def KillSwitchHandler.handleGet (kv : KVState) (loadFail : Bool) : HttpResponse :=
  match KillSwitchRepository.load kv loadFail with
  | some data => jsonResponse 200 data.toJson
  | none => jsonResponse 500 (Json.obj [("error", Json.str "Failed to load state")])

/-- The upstream exchange a proxied request would perform: the response the
upstream would give to the forwarded request, plus how long the `fetch`
takes (milliseconds of wall-clock time consumed by the network round
trip). -/
structure UpstreamExchange where
  status : Int
  statusText : String
  headers : List (String × String)
  body : String
  fetchDurationMs : Int
deriving DecidableEq, Repr

/-- Environment of the proxy handler: the configured upstream base URL, the
KV state, the load fault flags for the two records, and the upstream
exchange. -/
structure ProxyCtx where
  upstream : String
  kv : KVState
  ksLoadFail : Bool
  delayLoadFail : Bool
  ux : UpstreamExchange

/-- JavaScript `s.startsWith(pre)`: `pre` is a character prefix of `s`. -/
def strStartsWith (s pre : String) : Bool :=
  pre.data.isPrefixOf s.data

/-- `url.pathname.replace(/^\/proxy/, "")`: remove a leading `/proxy`
(the regex is anchored, so at most the one leading occurrence). -/
def stripProxyPrefix (p : String) : String :=
  if strStartsWith p "/proxy" then p.drop 6 else p

/-- The hard-coded fallback record `{enabled: false, status: 503, headers:
{}, body: ""}` used by the proxy when the kill-switch load fails
(src/handlers/proxy.ts lines 33-38). -/
def killSwitchLoadFallback : KillSwitch :=
  { enabled := false, status := 503, headers := [], body := "" }

/-- `killSwitchResult.value ?? {enabled: false, status: 503, headers: {},
body: ""}`: the kill-switch record the proxy handler works with. -/
def ProxyCtx.killSwitchData (ctx : ProxyCtx) : KillSwitch :=
  (KillSwitchRepository.load ctx.kv ctx.ksLoadFail).getD killSwitchLoadFallback

/-- `delayResult.value ?? 0`: the delay the proxy handler works with. -/
def ProxyCtx.delayMs (ctx : ProxyCtx) : Int :=
  (DelayRepository.load ctx.kv ctx.delayLoadFail 0).getD 0

/-- `new URL(targetPath + url.search, this.upstream)` where `targetPath`
is the pathname with the `/proxy` prefix stripped.  The model covers the
case the code exercises: the upstream is an origin-form base URL and the
relative reference is path-absolute (it always starts with `/` because
the pathname starts with `/proxy/`), so resolution is concatenation. -/
def ProxyCtx.targetUrl (ctx : ProxyCtx) (req : HttpRequest) : String :=
  ctx.upstream ++ stripProxyPrefix req.pathname ++ req.search

/-- `ProxyHandler.handleProxy` (src/handlers/proxy.ts lines 27-79): load
both records (with their fallbacks), compute the target URL, log the
request, sleep `delayMs` when the loaded record is not enabled, then
either answer with the kill-switch record (no fetch) or forward to the
upstream and mirror its status, statusText, headers and body.  The logged
duration is the time elapsed since before the sleep: `0` in the killed
branch (nothing suspended), `delayMs + fetchDurationMs` in the forwarding
branch. -/
def ProxyHandler.handleProxy (ctx : ProxyCtx) (req : HttpRequest) :
    HttpResponse × List Event :=
  let killSwitchData := ctx.killSwitchData
  let delayMs := ctx.delayMs
  let targetUrl := ctx.targetUrl req
  let requestEvent := Event.logRequest req.method (req.pathname ++ req.search) targetUrl
  let sleepEvents := if killSwitchData.enabled then [] else [Event.slept delayMs]
  if killSwitchData.enabled then
    ({ status := killSwitchData.status
       statusText := ""
       headers := killSwitchData.headers
       body := killSwitchData.body },
     [requestEvent] ++ sleepEvents ++
       [Event.logResponse targetUrl killSwitchData.status 0 true])
  else
    ({ status := ctx.ux.status
       statusText := ctx.ux.statusText
       headers := ctx.ux.headers
       body := ctx.ux.body },
     [requestEvent] ++ sleepEvents ++
       [Event.fetched targetUrl,
        Event.logResponse targetUrl ctx.ux.status (delayMs + ctx.ux.fetchDurationMs) false])

/-- `ProxyHandler.handle` (src/handlers/proxy.ts lines 16-25): `none`
("not mine") unless the pathname starts with `/proxy/`. -/
def ProxyHandler.handle (ctx : ProxyCtx) (req : HttpRequest) :
    Option (HttpResponse × List Event) :=
  if strStartsWith req.pathname "/proxy/" then some (ProxyHandler.handleProxy ctx req)
  else none

/-- `NotFoundHandler.handle` (src/handlers/proxy.ts lines 85-92). -/
def NotFoundHandler.handle : HttpResponse :=
  jsonResponse 404 (Json.obj [("error", Json.str "Not found")])

/-- Environment of the whole request pipeline: the proxy environment, the
save fault flags for the two records, and the contents served by the
documentation handlers.  `swaggerJsonBody` is the serialized OpenAPI
document (read from disk and rewritten with the request's server URL) and
`swaggerUiBody` the generated Swagger UI HTML page; both are static
content outside the routing/fault-injection core, so their text is kept
abstract here — only their status codes and routes are modelled. -/
structure ServerCtx where
  proxy : ProxyCtx
  ksSaveFail : Bool
  delaySaveFail : Bool
  swaggerJsonBody : String
  swaggerUiBody : String

/-- `SwaggerHandler.handle` (src/handlers/swagger.ts): 200 JSON at
`GET /swagger/json`, otherwise "not mine". -/
def SwaggerHandler.handle (ctx : ServerCtx) (req : HttpRequest) : Option HttpResponse :=
  if req.pathname = "/swagger/json" ∧ req.method = "GET" then
    some { status := 200
           statusText := ""
           headers := [("content-type", "application/json")]
           body := ctx.swaggerJsonBody }
  else none

/-- `SwaggerUiHandler.handle` (src/handlers/swagger-ui.ts): 200 HTML at
`GET /swagger/` and `GET /swagger/index.html`, otherwise "not mine". -/
def SwaggerUiHandler.handle (ctx : ServerCtx) (req : HttpRequest) : Option HttpResponse :=
  if req.method = "GET" ∧ (req.pathname = "/swagger/" ∨ req.pathname = "/swagger/index.html") then
    some { status := 200
           statusText := ""
           headers := [("content-type", "text/html; charset=utf-8")]
           body := ctx.swaggerUiBody }
  else none

/-- `KillSwitchHandler.handle` (src/handlers/kill-switch.ts lines 62-76):
claims `POST /api/kill-switch` and `GET /api/kill-switch` only. -/
def KillSwitchHandler.handle (ctx : ServerCtx) (req : HttpRequest) : Option HandlerOutcome :=
  if req.pathname = "/api/kill-switch" ∧ req.method = "POST" then
    some (KillSwitchHandler.handlePost ctx.proxy.kv ctx.proxy.ksLoadFail ctx.ksSaveFail
      req.bodyJson)
  else if req.pathname = "/api/kill-switch" ∧ req.method = "GET" then
    some { response := KillSwitchHandler.handleGet ctx.proxy.kv ctx.proxy.ksLoadFail
           kv := ctx.proxy.kv
           events := [] }
  else none

/-- `DelayHandler.handle` (src/handlers/delay.ts lines 15-29): claims
`POST /api/delay` and `GET /api/delay` only. -/
def DelayHandler.handle (ctx : ServerCtx) (req : HttpRequest) : Option HandlerOutcome :=
  if req.pathname = "/api/delay" ∧ req.method = "POST" then
    some (DelayHandler.handlePost ctx.proxy.kv ctx.proxy.delayLoadFail ctx.delaySaveFail
      req.bodyJson)
  else if req.pathname = "/api/delay" ∧ req.method = "GET" then
    some { response := DelayHandler.handleGet ctx.proxy.kv ctx.proxy.delayLoadFail
           kv := ctx.proxy.kv
           events := [] }
  else none

/-- `handleRequest` (main.ts lines 46-81): try the Swagger JSON handler,
the Swagger UI handler, the kill-switch handler, the delay handler and
the proxy handler in that order; the first non-null response wins and
anything unmatched falls through to the Not-Found handler. -/
def handleRequest (ctx : ServerCtx) (req : HttpRequest) : HandlerOutcome :=
  match SwaggerHandler.handle ctx req with
  | some response => { response := response, kv := ctx.proxy.kv, events := [] }
  | none =>
  match SwaggerUiHandler.handle ctx req with
  | some response => { response := response, kv := ctx.proxy.kv, events := [] }
  | none =>
  match KillSwitchHandler.handle ctx req with
  | some outcome => outcome
  | none =>
  match DelayHandler.handle ctx req with
  | some outcome => outcome
  | none =>
  match ProxyHandler.handle ctx.proxy req with
  | some result => { response := result.1, kv := ctx.proxy.kv, events := result.2 }
  | none => { response := NotFoundHandler.handle, kv := ctx.proxy.kv, events := [] }

/-- A path starting with `/proxy/` also starts with `/proxy` (so the
anchored regex in `stripProxyPrefix` fires under the routing guard). -/
theorem strStartsWith_proxy_of_proxySlash {p : String}
    (h : strStartsWith p "/proxy/" = true) : strStartsWith p "/proxy" = true := by
  unfold strStartsWith at h ⊢
  rw [List.isPrefixOf_iff_prefix] at h ⊢
  exact List.IsPrefix.trans (by decide) h

/-- A kill-switch record with the switch on, as in the spec's round-trip
scenario. -/
def sampleKillOn : KillSwitch :=
  { enabled := true, status := 503, headers := [("X-Custom", "test")], body := "down" }

/-- A fixed upstream exchange used by the concrete witnesses. -/
def sampleUx : UpstreamExchange :=
  { status := 200
    statusText := "OK"
    headers := [("content-type", "text/plain")]
    body := "hello"
    fetchDurationMs := 7 }

/-- Proxy environment with the kill-switch stored enabled and a stored
delay of 250ms. -/
def sampleCtxOn : ProxyCtx :=
  { upstream := "http://up.local"
    kv := { killSwitch := some sampleKillOn, delay := some 250 }
    ksLoadFail := false
    delayLoadFail := false
    ux := sampleUx }

/-- Proxy environment with no stored kill-switch record (so the default,
disabled record is loaded) and a stored delay of 0. -/
def sampleCtxOff : ProxyCtx :=
  { upstream := "http://up.local"
    kv := { killSwitch := none, delay := some 0 }
    ksLoadFail := false
    delayLoadFail := false
    ux := sampleUx }

/-- The spec scenario's proxied request: `GET /proxy/api/users?x=1`. -/
def sampleProxyReq : HttpRequest :=
  { method := "GET", pathname := "/proxy/api/users", search := "?x=1", headers := [], bodyJson := none }

/-- C1: for a request whose path starts with `/proxy/`, when the
kill-switch record loaded at the start of handling is enabled, the proxy
handler answers with exactly the configured status, headers and body,
never fetches the upstream and never sleeps — for every KV delay value
and delay-load outcome (both are arbitrary inside `ctx`). -/
theorem proxy_killed_returns_configured_response_without_fetch_or_sleep
    (ctx : ProxyCtx) (req : HttpRequest)
    (hpath : strStartsWith req.pathname "/proxy/" = true)
    (hen : ctx.killSwitchData.enabled = true) :
    ProxyHandler.handle ctx req = some (ProxyHandler.handleProxy ctx req) ∧
    (ProxyHandler.handleProxy ctx req).1 =
      { status := ctx.killSwitchData.status
        statusText := ""
        headers := ctx.killSwitchData.headers
        body := ctx.killSwitchData.body } ∧
    (∀ u, Event.fetched u ∉ (ProxyHandler.handleProxy ctx req).2) ∧
    (∀ ms, Event.slept ms ∉ (ProxyHandler.handleProxy ctx req).2) := by
  refine ⟨?_, ?_, ?_, ?_⟩
  · unfold ProxyHandler.handle
    simp [hpath]
  · unfold ProxyHandler.handleProxy
    simp [hen]
  · intro u
    unfold ProxyHandler.handleProxy
    simp [hen]
  · intro ms
    unfold ProxyHandler.handleProxy
    simp [hen]

/-- Witness for C1 at the concrete enabled environment and request. -/
theorem proxy_killed_returns_configured_response_without_fetch_or_sleep_witness :
    strStartsWith sampleProxyReq.pathname "/proxy/" = true ∧
    sampleCtxOn.killSwitchData.enabled = true ∧
    (ProxyHandler.handle sampleCtxOn sampleProxyReq =
        some (ProxyHandler.handleProxy sampleCtxOn sampleProxyReq) ∧
      (ProxyHandler.handleProxy sampleCtxOn sampleProxyReq).1 =
        { status := sampleCtxOn.killSwitchData.status
          statusText := ""
          headers := sampleCtxOn.killSwitchData.headers
          body := sampleCtxOn.killSwitchData.body } ∧
      (∀ u, Event.fetched u ∉ (ProxyHandler.handleProxy sampleCtxOn sampleProxyReq).2) ∧
      (∀ ms, Event.slept ms ∉ (ProxyHandler.handleProxy sampleCtxOn sampleProxyReq).2)) :=
  ⟨by decide, by decide,
    proxy_killed_returns_configured_response_without_fetch_or_sleep sampleCtxOn sampleProxyReq
      (by decide) (by decide)⟩

/-- C7: when the loaded kill-switch record is not enabled, the handler's
trace is exactly request-log, a suspension of the loaded `delayMs`, the
upstream fetch, then the response-log; the suspension strictly precedes
the fetch, and the logged wall-clock duration (`delayMs` plus the fetch's
duration) is at least the configured delay. -/
theorem proxy_not_enabled_sleeps_delay_before_fetch
    (ctx : ProxyCtx) (req : HttpRequest)
    (hen : ctx.killSwitchData.enabled = false)
    (hfd : 0 ≤ ctx.ux.fetchDurationMs) :
    (ProxyHandler.handleProxy ctx req).2 =
      [Event.logRequest req.method (req.pathname ++ req.search) (ctx.targetUrl req),
       Event.slept ctx.delayMs,
       Event.fetched (ctx.targetUrl req),
       Event.logResponse (ctx.targetUrl req) ctx.ux.status
         (ctx.delayMs + ctx.ux.fetchDurationMs) false] ∧
    ctx.delayMs ≤ ctx.delayMs + ctx.ux.fetchDurationMs := by
  constructor
  · unfold ProxyHandler.handleProxy
    simp [hen]
  · omega

/-- Witness for C7 with a stored 250ms delay and a 7ms fetch. -/
theorem proxy_not_enabled_sleeps_delay_before_fetch_witness :
    (let ctx : ProxyCtx :=
      { upstream := "http://up.local"
        kv := { killSwitch := none, delay := some 250 }
        ksLoadFail := false
        delayLoadFail := false
        ux := sampleUx }
     ctx.killSwitchData.enabled = false ∧ 0 ≤ ctx.ux.fetchDurationMs ∧
      ((ProxyHandler.handleProxy ctx sampleProxyReq).2 =
        [Event.logRequest sampleProxyReq.method
           (sampleProxyReq.pathname ++ sampleProxyReq.search) (ctx.targetUrl sampleProxyReq),
         Event.slept ctx.delayMs,
         Event.fetched (ctx.targetUrl sampleProxyReq),
         Event.logResponse (ctx.targetUrl sampleProxyReq) ctx.ux.status
           (ctx.delayMs + ctx.ux.fetchDurationMs) false] ∧
       ctx.delayMs ≤ ctx.delayMs + ctx.ux.fetchDurationMs)) :=
  ⟨by decide, by decide,
    proxy_not_enabled_sleeps_delay_before_fetch _ sampleProxyReq (by decide) (by decide)⟩

/-- C8: under the `/proxy/` guard with the kill-switch disabled, the
forwarding target is the configured upstream base followed by the
pathname with its 6-character `/proxy` prefix stripped and the original
query string, the handler fetches exactly that URL, and the response
mirrors the upstream's status and body. -/
theorem proxy_forwards_stripped_path_and_mirrors_upstream
    (ctx : ProxyCtx) (req : HttpRequest)
    (hpath : strStartsWith req.pathname "/proxy/" = true)
    (hen : ctx.killSwitchData.enabled = false) :
    ctx.targetUrl req = ctx.upstream ++ req.pathname.drop 6 ++ req.search ∧
    Event.fetched (ctx.targetUrl req) ∈ (ProxyHandler.handleProxy ctx req).2 ∧
    (ProxyHandler.handleProxy ctx req).1.status = ctx.ux.status ∧
    (ProxyHandler.handleProxy ctx req).1.body = ctx.ux.body := by
  refine ⟨?_, ?_, ?_, ?_⟩
  · unfold ProxyCtx.targetUrl stripProxyPrefix
    rw [if_pos (strStartsWith_proxy_of_proxySlash hpath)]
  · unfold ProxyHandler.handleProxy
    simp [hen]
  · unfold ProxyHandler.handleProxy
    simp [hen]
  · unfold ProxyHandler.handleProxy
    simp [hen]

/-- Witness for C8 at the spec's scenario: upstream `http://up.local`,
request `GET /proxy/api/users?x=1`, delay 0, kill-switch disabled; the
computed target is `http://up.local/api/users?x=1`. -/
theorem proxy_forwards_stripped_path_and_mirrors_upstream_witness :
    strStartsWith sampleProxyReq.pathname "/proxy/" = true ∧
    sampleCtxOff.killSwitchData.enabled = false ∧
    sampleCtxOff.targetUrl sampleProxyReq = "http://up.local/api/users?x=1" ∧
    (sampleCtxOff.targetUrl sampleProxyReq =
        sampleCtxOff.upstream ++ sampleProxyReq.pathname.drop 6 ++ sampleProxyReq.search ∧
      Event.fetched (sampleCtxOff.targetUrl sampleProxyReq) ∈
        (ProxyHandler.handleProxy sampleCtxOff sampleProxyReq).2 ∧
      (ProxyHandler.handleProxy sampleCtxOff sampleProxyReq).1.status = sampleCtxOff.ux.status ∧
      (ProxyHandler.handleProxy sampleCtxOff sampleProxyReq).1.body = sampleCtxOff.ux.body) :=
  ⟨by decide, by decide, by decide,
    proxy_forwards_stripped_path_and_mirrors_upstream sampleCtxOff sampleProxyReq
      (by decide) (by decide)⟩

/-- C2: a `POST /api/delay` whose body is the empty JSON object, against a
store that holds a delay value, answers 200 `{success: true, delay}` with
the previously stored value, leaves the KV state unchanged (the no-op
update saves the same value back) and logs the usual update event. -/
theorem delay_post_empty_object_is_noop (kv : KVState) (d : Int) (hd : kv.delay = some d) :
    DelayHandler.handlePost kv false false (some (Json.obj [])) =
      { response := jsonResponse 200
          (Json.obj [("success", Json.bool true), ("delay", Json.num d)])
        kv := kv
        events := [Event.logInfo "delay-updated"] } := by
  have hparse : DelayDto.safeParse (Json.obj []) = some none := rfl
  have hkv : ({ kv with delay := some d } : KVState) = kv := by
    cases kv
    simp_all
  unfold DelayHandler.handlePost
  simp only [hparse]
  simp [DelayRepository.load, DelayRepository.save, hd, hkv]

/-- Witness for C2 with a stored delay of 123. -/
theorem delay_post_empty_object_is_noop_witness :
    (({ killSwitch := none, delay := some 123 } : KVState).delay = some 123) ∧
    DelayHandler.handlePost { killSwitch := none, delay := some 123 } false false
        (some (Json.obj [])) =
      { response := jsonResponse 200
          (Json.obj [("success", Json.bool true), ("delay", Json.num 123)])
        kv := { killSwitch := none, delay := some 123 }
        events := [Event.logInfo "delay-updated"] } :=
  ⟨rfl, delay_post_empty_object_is_noop { killSwitch := none, delay := some 123 } 123 rfl⟩

/-- C6: a `POST /api/delay` whose body validates answers 200
`{success: true, delay: effective}` where `effective` is the request's
delay if present, else the loaded value, else 0; the response is
identical whether the save succeeds or fails, and a save failure is
recorded as an error-level `delay-save-failed` event only. -/
theorem delay_post_valid_reports_success_even_if_save_fails
    (kv : KVState) (loadFail saveFail : Bool) (j : Json) (df : Option Int)
    (hv : DelayDto.safeParse j = some df) :
    (DelayHandler.handlePost kv loadFail saveFail (some j)).response =
      jsonResponse 200 (Json.obj [("success", Json.bool true),
        ("delay", Json.num (df.getD ((DelayRepository.load kv loadFail 0).getD 0)))]) ∧
    (DelayHandler.handlePost kv loadFail true (some j)).response =
      (DelayHandler.handlePost kv loadFail false (some j)).response ∧
    (saveFail = true →
      (DelayHandler.handlePost kv loadFail saveFail (some j)).events =
        [Event.logError "delay-save-failed"]) := by
  refine ⟨?_, ?_, ?_⟩
  · unfold DelayHandler.handlePost
    simp only [hv]
  · unfold DelayHandler.handlePost
    simp only [hv]
  · intro hs
    subst hs
    unfold DelayHandler.handlePost
    simp only [hv]
    simp [DelayRepository.save]

/-- Witness for C6: `{delay: 42}` with a failing save against a store
holding 5. -/
theorem delay_post_valid_reports_success_even_if_save_fails_witness :
    DelayDto.safeParse (Json.obj [("delay", Json.num 42)]) = some (some 42) ∧
    ((DelayHandler.handlePost { killSwitch := none, delay := some 5 } false true
          (some (Json.obj [("delay", Json.num 42)]))).response =
        jsonResponse 200 (Json.obj [("success", Json.bool true),
          ("delay", Json.num ((some (42 : Int)).getD
            ((DelayRepository.load { killSwitch := none, delay := some 5 } false 0).getD 0)))]) ∧
      (DelayHandler.handlePost { killSwitch := none, delay := some 5 } false true
          (some (Json.obj [("delay", Json.num 42)]))).response =
        (DelayHandler.handlePost { killSwitch := none, delay := some 5 } false false
          (some (Json.obj [("delay", Json.num 42)]))).response ∧
      (true = true →
        (DelayHandler.handlePost { killSwitch := none, delay := some 5 } false true
            (some (Json.obj [("delay", Json.num 42)]))).events =
          [Event.logError "delay-save-failed"])) :=
  ⟨rfl, delay_post_valid_reports_success_even_if_save_fails
    { killSwitch := none, delay := some 5 } false true (Json.obj [("delay", Json.num 42)])
    (some 42) rfl⟩

/-- Parsing a serialized header record recovers the record: the Zod
`z.record(z.string())` check inverts the JSON embedding of a
string-to-string map. -/
theorem parseHeadersFields_map (hs : List (String × String)) :
    parseHeadersFields (hs.map (fun p => (p.1, Json.str p.2))) = some hs := by
  induction hs with
  | nil => rfl
  | cons h t ih =>
      cases h
      simp [parseHeadersFields, ih]

/-- The JSON request body carrying a full kill-switch record, as in the
spec's round-trip scenario. -/
def killSwitchBodyJson (r : KillSwitch) : Json :=
  Json.obj
    [("enabled", Json.bool r.enabled),
     ("status", Json.num r.status),
     ("headers", Json.obj (r.headers.map (fun p => (p.1, Json.str p.2)))),
     ("body", Json.str r.body)]

/-- A full-record body validates to the record's four fields. -/
theorem killSwitchBodyJson_safeParse (r : KillSwitch) :
    KillSwitchDto.safeParse (killSwitchBodyJson r) =
      some { enabled := some r.enabled
             status := some r.status
             headers := some r.headers
             body := some r.body } := by
  unfold killSwitchBodyJson KillSwitchDto.safeParse
  simp [lookupField, parseOptBool, parseOptNum, parseOptStr, parseOptHeaders,
    parseHeadersFields_map]

/-- C5: a `POST /api/kill-switch` whose validated body is exactly
`{enabled: true}`, against a store holding a record `r`, persists and
echoes the merged record that keeps `r`'s `status`, `headers` and `body`
unchanged and only flips `enabled`. -/
theorem kill_switch_post_enabled_only_preserves_other_fields
    (kv : KVState) (r : KillSwitch) (hr : kv.killSwitch = some r) :
    KillSwitchHandler.handlePost kv false false (some (Json.obj [("enabled", Json.bool true)])) =
      { response := jsonResponse 200 (Json.obj [("success", Json.bool true),
          ("state", KillSwitch.toJson
            { enabled := true, status := r.status, headers := r.headers, body := r.body })])
        kv := { kv with killSwitch := some (KillSwitch.mk true r.status r.headers r.body) }
        events := [Event.logInfo "kill-switch-updated"] } := by
  have hparse : KillSwitchDto.safeParse (Json.obj [("enabled", Json.bool true)]) =
      some { enabled := some true, status := none, headers := none, body := none } := rfl
  unfold KillSwitchHandler.handlePost
  simp only [hparse]
  simp [KillSwitchRepository.load, KillSwitchRepository.save, mergeKillSwitch, hr]

/-- A disabled kill-switch record with distinctive fields, stored prior to
the C5 update. -/
def sampleKillStored : KillSwitch :=
  KillSwitch.mk false 503 [("X-Custom", "test")] "down"

/-- KV state holding `sampleKillStored` and no delay record. -/
def sampleKvStored : KVState :=
  { killSwitch := some sampleKillStored, delay := none }

/-- Witness for C5: only `enabled` flips, the stored 503/headers/body
survive. -/
theorem kill_switch_post_enabled_only_preserves_other_fields_witness :
    sampleKvStored.killSwitch = some sampleKillStored ∧
    KillSwitchHandler.handlePost sampleKvStored false false
        (some (Json.obj [("enabled", Json.bool true)])) =
      { response := jsonResponse 200 (Json.obj [("success", Json.bool true),
          ("state", KillSwitch.toJson (KillSwitch.mk true sampleKillStored.status
            sampleKillStored.headers sampleKillStored.body))])
        kv := { sampleKvStored with
          killSwitch := some (KillSwitch.mk true sampleKillStored.status
            sampleKillStored.headers sampleKillStored.body) }
        events := [Event.logInfo "kill-switch-updated"] } :=
  ⟨rfl, kill_switch_post_enabled_only_preserves_other_fields sampleKvStored sampleKillStored rfl⟩

/-- C9: posting a full kill-switch record `r` (all four fields present)
persists exactly `r`, echoes `r` in the 200 response, and a following
`GET /api/kill-switch` against the resulting store returns exactly `r` —
the save-then-load round trip is the identity, for every record and
every prior store contents. -/
theorem kill_switch_post_then_get_round_trip (kv : KVState) (r : KillSwitch) :
    (KillSwitchHandler.handlePost kv false false (some (killSwitchBodyJson r))).kv.killSwitch =
      some r ∧
    (KillSwitchHandler.handlePost kv false false (some (killSwitchBodyJson r))).response =
      jsonResponse 200 (Json.obj [("success", Json.bool true), ("state", r.toJson)]) ∧
    KillSwitchHandler.handleGet
        (KillSwitchHandler.handlePost kv false false (some (killSwitchBodyJson r))).kv false =
      jsonResponse 200 r.toJson := by
  have hpost : KillSwitchHandler.handlePost kv false false (some (killSwitchBodyJson r)) =
      { response := jsonResponse 200 (Json.obj [("success", Json.bool true), ("state", r.toJson)])
        kv := { kv with killSwitch := some r }
        events := [Event.logInfo "kill-switch-updated"] } := by
    unfold KillSwitchHandler.handlePost
    simp only [killSwitchBodyJson_safeParse]
    simp [KillSwitchRepository.load, KillSwitchRepository.save, mergeKillSwitch]
  rw [hpost]
  refine ⟨rfl, rfl, ?_⟩
  unfold KillSwitchHandler.handleGet
  simp [KillSwitchRepository.load]

/-- C3's failing input: `POST /api/kill-switch` with `{status: 999}`.  999
is not a valid HTTP status code, yet validation passes (the DTO checks
only `z.number()`), the handler answers 200 success and the merged record
with `status = 999` is persisted — no 400, and the stored-record
invariant `100 ≤ status ≤ 599` is violated. -/
theorem kill_switch_post_out_of_range_status_accepted :
    (KillSwitchHandler.handlePost { killSwitch := none, delay := none } false false
        (some (Json.obj [("status", Json.num 999)]))).response.status = 200 ∧
    (KillSwitchHandler.handlePost { killSwitch := none, delay := none } false false
        (some (Json.obj [("status", Json.num 999)]))).kv.killSwitch =
      some { enabled := false
             status := 999
             headers := [("content-type", "application/json")]
             body := DEFAULT_KILL_SWITCH.body } ∧
    ¬(100 ≤ (999 : Int) ∧ (999 : Int) ≤ 599) := by
  refine ⟨rfl, rfl, by decide⟩

/-- Server environment used by the concrete router witnesses: disabled
kill-switch, zero delay, no faults, empty documentation bodies. -/
def sampleServerCtx : ServerCtx :=
  { proxy := sampleCtxOff
    ksSaveFail := false
    delaySaveFail := false
    swaggerJsonBody := ""
    swaggerUiBody := "" }

/-- C4 counterexample: `GET /swagger/` matches neither the delay API, nor
the kill-switch API, nor the `/proxy/` prefix, yet the server answers 200
(the Swagger UI page), not 404 — the blanket not-found claim fails for
the documentation endpoints. -/
theorem router_swagger_ui_breaks_blanket_not_found :
    (handleRequest sampleServerCtx (HttpRequest.mk "GET" "/swagger/" "" [] none)).response.status
      = 200 ∧
    ("/swagger/" : String) ≠ "/api/delay" ∧
    ("/swagger/" : String) ≠ "/api/kill-switch" ∧
    strStartsWith "/swagger/" "/proxy/" = false ∧
    (200 : Int) ≠ 404 := by
  refine ⟨rfl, by decide, by decide, by decide, by decide⟩

/-- C4 (amended): a request that matches none of the documentation
endpoints (`GET /swagger/json`, `GET /swagger/`,
`GET /swagger/index.html`), the kill-switch API, the delay API, or the
`/proxy/` path prefix falls through every handler and receives exactly
the Not-Found response: status 404, body `{"error":"Not found"}`, JSON
content type, with the store untouched. -/
theorem router_unmatched_requests_return_not_found (ctx : ServerCtx) (req : HttpRequest)
    (hsj : ¬(req.pathname = "/swagger/json" ∧ req.method = "GET"))
    (hsu : ¬(req.method = "GET" ∧
      (req.pathname = "/swagger/" ∨ req.pathname = "/swagger/index.html")))
    (hks : ¬(req.pathname = "/api/kill-switch" ∧ req.method = "POST") ∧
      ¬(req.pathname = "/api/kill-switch" ∧ req.method = "GET"))
    (hdl : ¬(req.pathname = "/api/delay" ∧ req.method = "POST") ∧
      ¬(req.pathname = "/api/delay" ∧ req.method = "GET"))
    (hp : strStartsWith req.pathname "/proxy/" = false) :
    handleRequest ctx req =
      { response := NotFoundHandler.handle, kv := ctx.proxy.kv, events := [] } ∧
    NotFoundHandler.handle.status = 404 ∧
    NotFoundHandler.handle.body = Json.stringify (Json.obj [("error", Json.str "Not found")]) ∧
    NotFoundHandler.handle.headers = [("content-type", "application/json")] := by
  have h1 : SwaggerHandler.handle ctx req = none := by
    unfold SwaggerHandler.handle
    rw [if_neg hsj]
  have h2 : SwaggerUiHandler.handle ctx req = none := by
    unfold SwaggerUiHandler.handle
    rw [if_neg hsu]
  have h3 : KillSwitchHandler.handle ctx req = none := by
    unfold KillSwitchHandler.handle
    rw [if_neg hks.1, if_neg hks.2]
  have h4 : DelayHandler.handle ctx req = none := by
    unfold DelayHandler.handle
    rw [if_neg hdl.1, if_neg hdl.2]
  have h5 : ProxyHandler.handle ctx.proxy req = none := by
    unfold ProxyHandler.handle
    simp [hp]
  unfold handleRequest
  rw [h1, h2, h3, h4, h5]
  exact ⟨rfl, rfl, rfl, rfl⟩

/-- Witness for the amended C4 at `DELETE /unknown-path`. -/
theorem router_unmatched_requests_return_not_found_witness :
    (¬(("/unknown-path" : String) = "/swagger/json" ∧ ("DELETE" : String) = "GET")) ∧
    (¬(("DELETE" : String) = "GET" ∧
      (("/unknown-path" : String) = "/swagger/" ∨ ("/unknown-path" : String) = "/swagger/index.html"))) ∧
    (¬(("/unknown-path" : String) = "/api/kill-switch" ∧ ("DELETE" : String) = "POST") ∧
      ¬(("/unknown-path" : String) = "/api/kill-switch" ∧ ("DELETE" : String) = "GET")) ∧
    (¬(("/unknown-path" : String) = "/api/delay" ∧ ("DELETE" : String) = "POST") ∧
      ¬(("/unknown-path" : String) = "/api/delay" ∧ ("DELETE" : String) = "GET")) ∧
    strStartsWith "/unknown-path" "/proxy/" = false ∧
    (handleRequest sampleServerCtx (HttpRequest.mk "DELETE" "/unknown-path" "" [] none) =
        { response := NotFoundHandler.handle, kv := sampleServerCtx.proxy.kv, events := [] } ∧
      NotFoundHandler.handle.status = 404 ∧
      NotFoundHandler.handle.body = Json.stringify (Json.obj [("error", Json.str "Not found")]) ∧
      NotFoundHandler.handle.headers = [("content-type", "application/json")]) :=
  ⟨by decide, by decide, ⟨by decide, by decide⟩, ⟨by decide, by decide⟩, by decide,
    router_unmatched_requests_return_not_found sampleServerCtx
      (HttpRequest.mk "DELETE" "/unknown-path" "" [] none)
      (by decide) (by decide) ⟨by decide, by decide⟩ ⟨by decide, by decide⟩ (by decide)⟩

/-- Proxy environment where the kill-switch load fails but the delay load
succeeds with a stored 100ms delay. -/
def sampleCtxKsFail : ProxyCtx :=
  { upstream := "http://up.local"
    kv := { killSwitch := none, delay := some 100 }
    ksLoadFail := true
    delayLoadFail := false
    ux := sampleUx }

/-- C10 counterexample: when the kill-switch load fails but the delay load
succeeds with a stored 100ms value, the proxy sleeps those 100ms — not
zero — before forwarding, so "forwards the request with zero delay" is
false as stated. -/
theorem kill_switch_load_failure_still_sleeps_stored_delay :
    sampleCtxKsFail.ksLoadFail = true ∧
    Event.slept 100 ∈ (ProxyHandler.handleProxy sampleCtxKsFail sampleProxyReq).2 ∧
    Event.slept 0 ∉ (ProxyHandler.handleProxy sampleCtxKsFail sampleProxyReq).2 := by
  refine ⟨rfl, by decide, by decide⟩

/-- C10 (amended): whenever the kill-switch load fails, the hard-coded
fallback record `{enabled: false, status: 503, headers: {}, body: ""}`
(which differs from `DEFAULT_KILL_SWITCH`) stands in: the proxy then
forwards the request rather than returning an error — sleeping the
independently loaded delay, which is zero when the delay load also
fails — and a `POST /api/kill-switch` with every field omitted fills all
fields from this fallback and still answers 200 success. -/
theorem kill_switch_load_failure_uses_fallback (ctx : ProxyCtx) (req : HttpRequest)
    (kv2 : KVState) (hks : ctx.ksLoadFail = true) :
    ctx.killSwitchData = killSwitchLoadFallback ∧
    killSwitchLoadFallback ≠ DEFAULT_KILL_SWITCH ∧
    (ProxyHandler.handleProxy ctx req).1.status = ctx.ux.status ∧
    Event.slept ctx.delayMs ∈ (ProxyHandler.handleProxy ctx req).2 ∧
    Event.fetched (ctx.targetUrl req) ∈ (ProxyHandler.handleProxy ctx req).2 ∧
    (ctx.delayLoadFail = true → ctx.delayMs = 0) ∧
    (KillSwitchHandler.handlePost kv2 true false (some (Json.obj []))).response =
      jsonResponse 200
        (Json.obj [("success", Json.bool true), ("state", killSwitchLoadFallback.toJson)]) ∧
    (KillSwitchHandler.handlePost kv2 true false (some (Json.obj []))).kv.killSwitch =
      some killSwitchLoadFallback := by
  have hkd : ctx.killSwitchData = killSwitchLoadFallback := by
    unfold ProxyCtx.killSwitchData KillSwitchRepository.load
    rw [hks]
    rfl
  have hen : ctx.killSwitchData.enabled = false := by
    rw [hkd]
    rfl
  have hparse : KillSwitchDto.safeParse (Json.obj []) =
      some { enabled := none, status := none, headers := none, body := none } := rfl
  refine ⟨hkd, by decide, ?_, ?_, ?_, ?_, ?_, ?_⟩
  · unfold ProxyHandler.handleProxy
    simp [hen]
  · unfold ProxyHandler.handleProxy
    simp [hen]
  · unfold ProxyHandler.handleProxy
    simp [hen]
  · intro hd
    unfold ProxyCtx.delayMs DelayRepository.load
    rw [hd]
    rfl
  · unfold KillSwitchHandler.handlePost
    simp only [hparse]
    simp [KillSwitchRepository.load, KillSwitchRepository.save, mergeKillSwitch,
      killSwitchLoadFallback]
  · unfold KillSwitchHandler.handlePost
    simp only [hparse]
    simp [KillSwitchRepository.load, KillSwitchRepository.save, mergeKillSwitch,
      killSwitchLoadFallback]

/-- Witness for the amended C10 at the failing-load environment. -/
theorem kill_switch_load_failure_uses_fallback_witness :
    sampleCtxKsFail.ksLoadFail = true ∧
    (sampleCtxKsFail.killSwitchData = killSwitchLoadFallback ∧
      killSwitchLoadFallback ≠ DEFAULT_KILL_SWITCH ∧
      (ProxyHandler.handleProxy sampleCtxKsFail sampleProxyReq).1.status =
        sampleCtxKsFail.ux.status ∧
      Event.slept sampleCtxKsFail.delayMs ∈
        (ProxyHandler.handleProxy sampleCtxKsFail sampleProxyReq).2 ∧
      Event.fetched (sampleCtxKsFail.targetUrl sampleProxyReq) ∈
        (ProxyHandler.handleProxy sampleCtxKsFail sampleProxyReq).2 ∧
      (sampleCtxKsFail.delayLoadFail = true → sampleCtxKsFail.delayMs = 0) ∧
      (KillSwitchHandler.handlePost { killSwitch := none, delay := none } true false
          (some (Json.obj []))).response =
        jsonResponse 200
          (Json.obj [("success", Json.bool true), ("state", killSwitchLoadFallback.toJson)]) ∧
      (KillSwitchHandler.handlePost { killSwitch := none, delay := none } true false
          (some (Json.obj []))).kv.killSwitch = some killSwitchLoadFallback) :=
  ⟨rfl, kill_switch_load_failure_uses_fallback sampleCtxKsFail sampleProxyReq
    { killSwitch := none, delay := none } rfl⟩
